import Mathlib

/-!
Verification development for the GreenLens ESG analytics dashboard (app.py).

The dashboard loads a CSV into an in-memory table, filters it by a user
selection (company, years, regions, departments), derives per-row metrics
(intensities and composite indices, some normalized against the current
filtered subset), aggregates them, and renders charts plus a download of a
fixed column subset.  Below, the table is a list of records with rational
measure fields; the pandas operations used by the script (boolean-mask
filtering, column arithmetic, groupby-sum, min-max normalization, sorting,
column projection) are embedded as pure list functions.  Floating-point
division and NaN-skipping means are modelled separately by an extended
value type mirroring IEEE semantics for division by zero.
-/

namespace ESG

/-- One CSV record: one company/region/department/year/quarter observation.
Field names follow the dataset columns read by app.py. -/
structure Row where
  company_name : String
  region : String
  department : String
  year : Int
  quarter : Int
  energy_consumption_mwh : ℚ
  production_output_units : ℚ
  scope1_emissions_tco2e : ℚ
  scope2_emissions_tco2e : ℚ
  scope3_emissions_tco2e : ℚ
  revenue_usd_m : ℚ
  waste_generated_tonnes : ℚ
  waste_recycled_pct : ℚ
  water_withdrawal_m3 : ℚ
  water_recycled_pct : ℚ
  renewable_energy_share_pct : ℚ
  headcount : ℚ
  female_pct : ℚ
  minority_pct : ℚ
  employee_engagement_score : ℚ
  employee_turnover_pct : ℚ
  avg_training_hours_per_employee : ℚ
  pay_equity_ratio_female_to_male : ℚ
  board_gender_diversity_pct : ℚ
  community_investment_usd_m : ℚ
  lost_time_incident_rate : ℚ
  board_size : ℚ
  independent_directors_pct : ℚ
  anti_corruption_training_pct : ℚ
  esg_policy_coverage_pct : ℚ
  supplier_code_of_conduct_coverage_pct : ℚ
  controversy_level_0_low_3_high : ℚ
  data_breaches_count : ℚ
  whistleblower_reports : ℚ
  fines_penalties_usd_m : ℚ
  esg_score : ℚ

/-- The sidebar filter selection: one company, a set of years, regions and
departments (app.py lines 159-187). -/
structure Selection where
  company : String
  years : List Int
  regions : List String
  departments : List String

/-- The boolean mask of app.py lines 190-195, per row: company equality AND
year membership AND region membership AND department membership. -/
def rowMatches (sel : Selection) (r : Row) : Bool :=
  r.company_name == sel.company &&
  sel.years.contains r.year &&
  sel.regions.contains r.region &&
  sel.departments.contains r.department

/-- `filtered_df` of app.py lines 190-195: rows of the table passing the
conjunctive mask. -/
def filter_df (df : List Row) (sel : Selection) : List Row :=
  df.filter (rowMatches sel)

/-- A row with empty strings and zero measures, used to build concrete
test records by record update. -/
def row0 : Row where
  company_name := ""
  region := ""
  department := ""
  year := 0
  quarter := 0
  energy_consumption_mwh := 0
  production_output_units := 0
  scope1_emissions_tco2e := 0
  scope2_emissions_tco2e := 0
  scope3_emissions_tco2e := 0
  revenue_usd_m := 0
  waste_generated_tonnes := 0
  waste_recycled_pct := 0
  water_withdrawal_m3 := 0
  water_recycled_pct := 0
  renewable_energy_share_pct := 0
  headcount := 0
  female_pct := 0
  minority_pct := 0
  employee_engagement_score := 0
  employee_turnover_pct := 0
  avg_training_hours_per_employee := 0
  pay_equity_ratio_female_to_male := 0
  board_gender_diversity_pct := 0
  community_investment_usd_m := 0
  lost_time_incident_rate := 0
  board_size := 0
  independent_directors_pct := 0
  anti_corruption_training_pct := 0
  esg_policy_coverage_pct := 0
  supplier_code_of_conduct_coverage_pct := 0
  controversy_level_0_low_3_high := 0
  data_breaches_count := 0
  whistleblower_reports := 0
  fines_penalties_usd_m := 0
  esg_score := 0

/-- C1: every row in the filtered subset simultaneously satisfies all four
predicates (company equality, year/region/department membership), and the
filtered subset is a sublist of the table with size at most the table's. -/
theorem filter_conjunction (df : List Row) (sel : Selection) :
    (∀ r ∈ filter_df df sel,
      r.company_name = sel.company ∧ r.year ∈ sel.years ∧
      r.region ∈ sel.regions ∧ r.department ∈ sel.departments)
    ∧ (filter_df df sel).Sublist df
    ∧ (filter_df df sel).length ≤ df.length := by
  refine ⟨?_, List.filter_sublist df, List.length_filter_le _ df⟩
  intro r hr
  have h := List.of_mem_filter hr
  simpa [rowMatches, List.contains, List.elem_iff, and_assoc] using h

/-- A concrete matching row used to instantiate the filter-conjunction
theorem. -/
def wRow1 : Row :=
  { row0 with
      company_name := "A"
      year := 2022
      region := "EU"
      department := "Ops" }

/-- The concrete selection matching `wRow1`. -/
def wSel1 : Selection := ⟨"A", [2022], ["EU"], ["Ops"]⟩

/-- Concrete instantiation of the filter-conjunction theorem on a one-row
table whose row matches the selection. -/
theorem filter_conjunction_witness : wRow1.year ∈ wSel1.years := by
  have h := (filter_conjunction [wRow1] wSel1).1 wRow1 (by
    have he : filter_df [wRow1] wSel1 = [wRow1] := rfl
    rw [he]
    exact List.mem_singleton_self _)
  exact h.2.1

/-- Maximum of a list of rationals, as pandas Series.max on a non-empty
column (the empty case never arises behind the empty-subset guard). -/
def listMax : List ℚ → ℚ
  | [] => 0
  | [x] => x
  | x :: y :: t => max x (listMax (y :: t))

theorem le_listMax : ∀ {l : List ℚ}, ∀ x ∈ l, x ≤ listMax l
  | [y], x, hx => by
    rcases List.mem_singleton.mp hx with rfl
    exact le_of_eq rfl
  | y :: z :: t, x, hx => by
    rcases List.mem_cons.mp hx with rfl | h
    · exact le_max_left _ _
    · exact le_trans (le_listMax x h) (le_max_right _ _)

/-- Per-row energy intensity (app.py line 241). -/
def energy_intensity (r : Row) : ℚ :=
  r.energy_consumption_mwh / r.production_output_units

/-- Per-row carbon intensity (app.py lines 242-243). -/
def carbon_intensity (r : Row) : ℚ :=
  (r.scope1_emissions_tco2e + r.scope2_emissions_tco2e +
    r.scope3_emissions_tco2e) / r.revenue_usd_m

/-- Per-row waste intensity (app.py line 244). -/
def waste_intensity (r : Row) : ℚ :=
  r.waste_generated_tonnes / r.production_output_units

/-- Per-row water intensity (app.py line 245). -/
def water_intensity (r : Row) : ℚ :=
  r.water_withdrawal_m3 / r.production_output_units

/-- Weighted waste recycled percentage (app.py lines 248-249). -/
def weighted_waste_recycled (r : Row) : ℚ :=
  r.waste_recycled_pct * r.waste_generated_tonnes

/-- The subset-wide maximum carbon intensity
(`filtered_df['carbon_intensity'].max()`, app.py line 254). -/
def maxCarbonIntensity (subset : List Row) : ℚ :=
  listMax (subset.map carbon_intensity)

/-- `norm_carbon_intensity` (app.py lines 253-254), normalized against the
current filtered subset. -/
def norm_carbon_intensity (subset : List Row) (r : Row) : ℚ :=
  1 - carbon_intensity r / maxCarbonIntensity subset

/-- `green_efficiency_score` (app.py lines 255-259). -/
def green_efficiency_score (subset : List Row) (r : Row) : ℚ :=
  (norm_carbon_intensity subset r * 0.4 +
   r.renewable_energy_share_pct * 0.3 +
   r.waste_recycled_pct * 0.3) * 100

/-- `male_pct` (app.py line 569). -/
def male_pct (r : Row) : ℚ := 1 - r.female_pct

/-- The subset-wide maximum training hours
(`filtered_df['avg_training_hours_per_employee'].max()`, app.py line 577). -/
def maxTrainingHours (subset : List Row) : ℚ :=
  listMax (subset.map Row.avg_training_hours_per_employee)

/-- `social_well_being_index` (app.py lines 572-578). -/
def social_well_being_index (subset : List Row) (r : Row) : ℚ :=
  ((r.employee_engagement_score / 100) * 0.25 +
   (1 - r.employee_turnover_pct) * 0.25 +
   r.pay_equity_ratio_female_to_male * 0.25 +
   (r.avg_training_hours_per_employee / maxTrainingHours subset) * 0.25) * 100

/-- `diversity_inclusion_index` (app.py lines 581-585). -/
def diversity_inclusion_index (r : Row) : ℚ :=
  (r.female_pct + r.minority_pct + r.board_gender_diversity_pct) / 3 * 100

/-- `governance_effectiveness_index` (app.py lines 962-969). -/
def governance_effectiveness_index (r : Row) : ℚ :=
  r.independent_directors_pct * 0.3 +
  r.board_gender_diversity_pct * 0.2 +
  r.anti_corruption_training_pct * 0.2 +
  r.esg_policy_coverage_pct * 0.15 +
  r.supplier_code_of_conduct_coverage_pct * 0.15 +
  (1 - r.controversy_level_0_low_3_high / 3) * 0.1

/-- Carbon intensity exactly as the spec words it (section 4.3):
`(scope1+scope2+scope3 emissions) / revenue_usd_m`. -/
def carbon_intensity_spec (r : Row) : ℚ :=
  (r.scope1_emissions_tco2e + r.scope2_emissions_tco2e +
    r.scope3_emissions_tco2e) / r.revenue_usd_m

/-- Green efficiency score exactly as the spec words it (section 4.3):
`100 * (0.4*(1 - carbon_intensity/max over subset) + 0.3*renewables +
0.3*waste recycled)`. -/
def green_efficiency_score_spec (subset : List Row) (r : Row) : ℚ :=
  100 * (0.4 * (1 - carbon_intensity_spec r /
      listMax (subset.map carbon_intensity_spec)) +
    0.3 * r.renewable_energy_share_pct + 0.3 * r.waste_recycled_pct)

/-- C3: for every non-empty filtered subset, the derived
`green_efficiency_score` of each row equals the spec's formula, with carbon
intensity `(scope1+scope2+scope3)/revenue` and the max taken over the
current subset. -/
theorem green_efficiency_score_matches_spec (subset : List Row) (r : Row)
    (h : subset ≠ []) :
    green_efficiency_score subset r = green_efficiency_score_spec subset r := by
  have hc : carbon_intensity_spec = carbon_intensity := rfl
  simp only [green_efficiency_score, green_efficiency_score_spec,
    norm_carbon_intensity, maxCarbonIntensity, hc]
  ring

/-- Concrete instantiation of the green-efficiency refinement theorem on a
one-row subset. -/
theorem green_efficiency_score_matches_spec_witness :
    green_efficiency_score [wRow1] wRow1 =
      green_efficiency_score_spec [wRow1] wRow1 :=
  green_efficiency_score_matches_spec [wRow1] wRow1 (List.cons_ne_nil _ _)

/-- A row whose five governance percentage inputs are 1 and whose
controversy level is 0, so the governance index evaluates to its weight
sum. -/
def govUnitRow : Row :=
  { row0 with
      independent_directors_pct := 1
      board_gender_diversity_pct := 1
      anti_corruption_training_pct := 1
      esg_policy_coverage_pct := 1
      supplier_code_of_conduct_coverage_pct := 1
      controversy_level_0_low_3_high := 0 }

/-- A row whose four social inputs each contribute their full weight
(engagement 100, turnover 0, pay equity 1, training equal to the subset
max), so the social index evaluates to 100 times its weight sum. -/
def socUnitRow : Row :=
  { row0 with
      employee_engagement_score := 100
      employee_turnover_pct := 0
      pay_equity_ratio_female_to_male := 1
      avg_training_hours_per_employee := 1 }

/-- C4: the governance-effectiveness weights sum to exactly 1.10 (the index
at unit inputs is 11/10, which is not 1), while the social-well-being
weights sum to exactly 1.0 (the index at unit inputs is 100). -/
theorem governance_and_social_weight_sums :
    governance_effectiveness_index govUnitRow = 11 / 10 ∧
    (11 / 10 : ℚ) ≠ 1 ∧
    social_well_being_index [socUnitRow] socUnitRow = 100 := by
  refine ⟨?_, by norm_num, ?_⟩
  · simp only [governance_effectiveness_index, govUnitRow, row0]
    norm_num
  · simp only [social_well_being_index, maxTrainingHours, List.map,
      listMax, socUnitRow, row0]
    norm_num

/-- Shared row of the normalization example: zero emissions (so zero carbon
intensity) and zero training hours. -/
def cRowR : Row :=
  { row0 with
      company_name := "A"
      region := "EU"
      department := "Ops"
      year := 2022
      revenue_usd_m := 1 }

/-- Second row of the first selection: carbon intensity 1, training hours 1. -/
def cRowA : Row :=
  { row0 with
      company_name := "A"
      region := "EU"
      department := "Ops"
      year := 2023
      scope1_emissions_tco2e := 1
      revenue_usd_m := 1
      avg_training_hours_per_employee := 1 }

/-- Second row of the second selection: carbon intensity 2, training hours 2. -/
def cRowB : Row :=
  { row0 with
      company_name := "A"
      region := "EU"
      department := "Ops"
      year := 2024
      scope1_emissions_tco2e := 2
      revenue_usd_m := 1
      avg_training_hours_per_employee := 2 }

/-- Example table for the normalization claims. -/
def cTable : List Row := [cRowR, cRowA, cRowB]

/-- Selection keeping years 2022 and 2023. -/
def cSel1 : Selection := ⟨"A", [2022, 2023], ["EU"], ["Ops"]⟩

/-- Selection keeping years 2022 and 2024. -/
def cSel2 : Selection := ⟨"A", [2022, 2024], ["EU"], ["Ops"]⟩

/-- C5 counterexample: two overlapping-but-different filtered subsets whose
max denominators (both carbon intensity and training hours) differ, yet the
shared row — having zero carbon intensity and zero training hours — receives
identical `green_efficiency_score` and identical `social_well_being_index`
in the two subsets. -/
theorem filter_relative_normalization_counterexample :
    cRowR ∈ filter_df cTable cSel1 ∧ cRowR ∈ filter_df cTable cSel2 ∧
    filter_df cTable cSel1 ≠ filter_df cTable cSel2 ∧
    maxCarbonIntensity (filter_df cTable cSel1) ≠
      maxCarbonIntensity (filter_df cTable cSel2) ∧
    maxTrainingHours (filter_df cTable cSel1) ≠
      maxTrainingHours (filter_df cTable cSel2) ∧
    green_efficiency_score (filter_df cTable cSel1) cRowR =
      green_efficiency_score (filter_df cTable cSel2) cRowR ∧
    social_well_being_index (filter_df cTable cSel1) cRowR =
      social_well_being_index (filter_df cTable cSel2) cRowR := by
  have he1 : filter_df cTable cSel1 = [cRowR, cRowA] := rfl
  have he2 : filter_df cTable cSel2 = [cRowR, cRowB] := rfl
  rw [he1, he2]
  refine ⟨List.mem_cons_self _ _, List.mem_cons_self _ _, ?_, ?_, ?_, ?_, ?_⟩
  · intro h
    have hy := congrArg (fun l => l.map Row.year) h
    simp [cRowR, cRowA, cRowB, row0] at hy
  · simp only [maxCarbonIntensity, carbon_intensity, List.map, listMax,
      cRowR, cRowA, cRowB, row0]
    norm_num
  · simp only [maxTrainingHours, List.map, listMax, cRowR, cRowA, cRowB,
      row0]
    norm_num
  · simp only [green_efficiency_score, norm_carbon_intensity,
      maxCarbonIntensity, carbon_intensity, List.map, listMax, cRowR, cRowA,
      cRowB, row0]
    norm_num
  · simp only [social_well_being_index, maxTrainingHours, List.map, listMax,
      cRowR, cRowA, cRowB, row0]
    norm_num

/-- C5 (amended): for a row present in two filtered subsets, whenever the
subset max denominator differs AND the row's own numerator is positive
(positive carbon intensity for the green score, positive training hours for
the social index), the row receives different scores in the two subsets;
rows with a zero numerator are unaffected by the denominator change. -/
theorem filter_relative_normalization (s1 s2 : List Row) (r : Row)
    (h1 : r ∈ s1) (h2 : r ∈ s2) :
    (0 < carbon_intensity r →
      maxCarbonIntensity s1 ≠ maxCarbonIntensity s2 →
      green_efficiency_score s1 r ≠ green_efficiency_score s2 r) ∧
    (0 < r.avg_training_hours_per_employee →
      maxTrainingHours s1 ≠ maxTrainingHours s2 →
      social_well_being_index s1 r ≠ social_well_being_index s2 r) := by
  constructor
  · intro hc hmax heq
    have hm1 : carbon_intensity r ≤ maxCarbonIntensity s1 :=
      le_listMax _ (List.mem_map_of_mem carbon_intensity h1)
    have hm2 : carbon_intensity r ≤ maxCarbonIntensity s2 :=
      le_listMax _ (List.mem_map_of_mem carbon_intensity h2)
    have h01 : (0 : ℚ) < maxCarbonIntensity s1 := lt_of_lt_of_le hc hm1
    have h02 : (0 : ℚ) < maxCarbonIntensity s2 := lt_of_lt_of_le hc hm2
    apply hmax
    have hdiv : carbon_intensity r / maxCarbonIntensity s1 =
        carbon_intensity r / maxCarbonIntensity s2 := by
      simp only [green_efficiency_score, norm_carbon_intensity] at heq
      nlinarith [heq]
    rw [div_eq_div_iff (ne_of_gt h01) (ne_of_gt h02)] at hdiv
    exact (mul_left_cancel₀ (ne_of_gt hc) hdiv).symm
  · intro ht hmax heq
    have hm1 : r.avg_training_hours_per_employee ≤ maxTrainingHours s1 :=
      le_listMax _ (List.mem_map_of_mem Row.avg_training_hours_per_employee h1)
    have hm2 : r.avg_training_hours_per_employee ≤ maxTrainingHours s2 :=
      le_listMax _ (List.mem_map_of_mem Row.avg_training_hours_per_employee h2)
    have h01 : (0 : ℚ) < maxTrainingHours s1 := lt_of_lt_of_le ht hm1
    have h02 : (0 : ℚ) < maxTrainingHours s2 := lt_of_lt_of_le ht hm2
    apply hmax
    have hdiv : r.avg_training_hours_per_employee / maxTrainingHours s1 =
        r.avg_training_hours_per_employee / maxTrainingHours s2 := by
      simp only [social_well_being_index] at heq
      nlinarith [heq]
    rw [div_eq_div_iff (ne_of_gt h01) (ne_of_gt h02)] at hdiv
    exact (mul_left_cancel₀ (ne_of_gt ht) hdiv).symm

/-- Concrete instantiation of the amended normalization theorem: a shared
row with positive carbon intensity and positive training hours does change
scores when the subset maxima change. -/
theorem filter_relative_normalization_witness :
    green_efficiency_score [cRowA] cRowA ≠
      green_efficiency_score [cRowA, cRowB] cRowA ∧
    social_well_being_index [cRowA] cRowA ≠
      social_well_being_index [cRowA, cRowB] cRowA := by
  have h := filter_relative_normalization [cRowA] [cRowA, cRowB] cRowA
    (List.mem_singleton_self _) (List.mem_cons_self _ _)
  constructor
  · refine h.1 ?_ ?_
    · simp only [carbon_intensity, cRowA, row0]
      norm_num
    · simp only [maxCarbonIntensity, carbon_intensity, List.map, listMax,
        cRowA, cRowB, row0]
      norm_num
  · refine h.2 ?_ ?_
    · simp only [cRowA, row0]
      norm_num
    · simp only [maxTrainingHours, List.map, listMax, cRowA, cRowB, row0]
      norm_num

/-- NumPy/pandas float values as produced by the pipeline's divisions:
finite rationals, the two infinities, and NaN. -/
inductive PFloat where
  | val (q : ℚ)
  | inf
  | negInf
  | nan
  deriving DecidableEq

/-- NaN test. -/
def PFloat.isNaN : PFloat → Bool
  | nan => true
  | _ => false

/-- Float addition: NaN propagates, infinities absorb finite values, and
opposite infinities give NaN. -/
def PFloat.add : PFloat → PFloat → PFloat
  | nan, _ => nan
  | _, nan => nan
  | val a, val b => val (a + b)
  | val _, inf => inf
  | inf, val _ => inf
  | inf, inf => inf
  | val _, negInf => negInf
  | negInf, val _ => negInf
  | negInf, negInf => negInf
  | inf, negInf => nan
  | negInf, inf => nan

/-- Float division as NumPy performs it on columns: a positive value over
zero gives `+inf`, a negative value over zero gives `-inf`, and `0/0` gives
NaN; division never raises. -/
def PFloat.div : PFloat → PFloat → PFloat
  | nan, _ => nan
  | _, nan => nan
  | val a, val b =>
      if b ≠ 0 then val (a / b)
      else if 0 < a then inf
      else if a < 0 then negInf
      else nan
  | inf, val b => if 0 ≤ b then inf else negInf
  | negInf, val b => if 0 ≤ b then negInf else inf
  | val _, inf => val 0
  | val _, negInf => val 0
  | inf, inf => nan
  | inf, negInf => nan
  | negInf, inf => nan
  | negInf, negInf => nan

/-- Sum of a float column. -/
def pfsum (xs : List PFloat) : PFloat := xs.foldl PFloat.add (PFloat.val 0)

/-- pandas `Series.mean()` with its default NaN skipping: NaN entries are
dropped, the sum of the remaining entries is divided by their count, and an
all-NaN column gives NaN.  Infinities are not dropped. -/
def pdMean (xs : List PFloat) : PFloat :=
  let ys := xs.filter (fun x => ! x.isNaN)
  if ys.length = 0 then PFloat.nan
  else PFloat.div (pfsum ys) (PFloat.val ys.length)

/-- `energy_intensity` under float-division semantics (app.py line 241). -/
def energy_intensity_float (r : Row) : PFloat :=
  PFloat.div (PFloat.val r.energy_consumption_mwh)
    (PFloat.val r.production_output_units)

/-- A normal row: 50 MWh over 10 units, energy intensity 5.0. -/
def eRow1 : Row :=
  { row0 with
      company_name := "A"
      region := "EU"
      department := "Ops"
      year := 2023
      energy_consumption_mwh := 50
      production_output_units := 10 }

/-- A degenerate row: positive energy but zero production output. -/
def eRow2 : Row :=
  { row0 with
      company_name := "A"
      region := "EU"
      department := "Ops"
      year := 2023
      energy_consumption_mwh := 30
      production_output_units := 0 }

/-- Table for the degenerate-denominator scenario. -/
def eTable : List Row := [eRow1, eRow2]

/-- Selection matching both rows of `eTable`. -/
def eSel : Selection := ⟨"A", [2023], ["EU"], ["Ops"]⟩

/-- C2 counterexample: in the filtered subset with one normal row (energy
intensity 5.0) and one zero-production row with positive energy, the
zero-production row derives to `+inf` (a defined value, no crash), but the
column mean is `+inf` rather than 5.0 — the aggregate does not exclude this
sentinel row. -/
theorem sentinel_mean_counterexample :
    filter_df eTable eSel = [eRow1, eRow2] ∧
    energy_intensity_float eRow1 = PFloat.val 5 ∧
    eRow2.production_output_units = 0 ∧
    energy_intensity_float eRow2 = PFloat.inf ∧
    pdMean ((filter_df eTable eSel).map energy_intensity_float) =
      PFloat.inf ∧
    PFloat.inf ≠ PFloat.val 5 := by
  have he : filter_df eTable eSel = [eRow1, eRow2] := rfl
  refine ⟨he, ?_, rfl, ?_, ?_, by simp⟩
  · norm_num [energy_intensity_float, PFloat.div, eRow1, row0]
  · norm_num [energy_intensity_float, PFloat.div, eRow2, row0]
  · rw [he]
    norm_num [energy_intensity_float, PFloat.div, PFloat.add, PFloat.isNaN,
      pdMean, pfsum, List.filter, eRow1, eRow2, row0]

/-- C2 (amended): a zero-production row yields a defined float rather than
crashing — NaN when the energy numerator is also zero, `+inf` when it is
positive — and means exclude exactly the NaN entries (so the spec's example
mean over {5.0, NaN} is exactly 5.0), while `+inf` is not excluded and
propagates into the mean. -/
theorem sentinel_mean_amended (r : Row) (h0 : r.production_output_units = 0)
    (xs : List PFloat) :
    (r.energy_consumption_mwh = 0 → energy_intensity_float r = PFloat.nan) ∧
    (0 < r.energy_consumption_mwh → energy_intensity_float r = PFloat.inf) ∧
    pdMean (xs.filter (fun x => ! x.isNaN)) = pdMean xs ∧
    pdMean [PFloat.val 5, PFloat.nan] = PFloat.val 5 := by
  refine ⟨?_, ?_, ?_, ?_⟩
  · intro hz
    simp [energy_intensity_float, PFloat.div, h0, hz]
  · intro hpos
    simp [energy_intensity_float, PFloat.div, h0, hpos, not_lt.mpr (le_of_lt hpos)]
  · simp [pdMean, List.filter_filter]
  · norm_num [pdMean, pfsum, PFloat.add, PFloat.div, PFloat.isNaN,
      List.filter]

/-- Concrete instantiation of the amended sentinel theorem: the all-zero
row derives to NaN (0/0), and the mean over {5.0, NaN} is exactly 5.0. -/
theorem sentinel_mean_amended_witness :
    energy_intensity_float row0 = PFloat.nan ∧
    pdMean [PFloat.val 5, PFloat.nan] = PFloat.val 5 := by
  have h := sentinel_mean_amended row0 rfl []
  exact ⟨h.1 rfl, h.2.2.2⟩

/-- A record of the working copy of the filtered subset after the tabs'
derived columns (app.py lines 240-259, 566-585, 962-969) have been added:
the base record plus every derived column. -/
structure DRow where
  base : Row
  energy_intensity : ℚ
  carbon_intensity : ℚ
  waste_intensity : ℚ
  water_intensity : ℚ
  weighted_waste_recycled : ℚ
  norm_carbon_intensity : ℚ
  green_efficiency_score : ℚ
  male_pct : ℚ
  social_well_being_index : ℚ
  diversity_inclusion_index : ℚ
  governance_effectiveness_index : ℚ

/-- Derived columns for one row of the filtered subset, with the
subset-relative maxima taken over the whole filtered subset. -/
def deriveRow (subset : List Row) (r : Row) : DRow where
  base := r
  energy_intensity := energy_intensity r
  carbon_intensity := carbon_intensity r
  waste_intensity := waste_intensity r
  water_intensity := water_intensity r
  weighted_waste_recycled := weighted_waste_recycled r
  norm_carbon_intensity := norm_carbon_intensity subset r
  green_efficiency_score := green_efficiency_score subset r
  male_pct := male_pct r
  social_well_being_index := social_well_being_index subset r
  diversity_inclusion_index := diversity_inclusion_index r
  governance_effectiveness_index := governance_effectiveness_index r

/-- The metric-derivation step: the column additions the script performs on
`filtered_df.copy()`, leaving the source table untouched. -/
def derive (subset : List Row) : List DRow :=
  subset.map (deriveRow subset)

theorem derive_base (s : List Row) : (derive s).map DRow.base = s := by
  simp only [derive, List.map_map]
  have hid : DRow.base ∘ deriveRow s = id := rfl
  rw [hid, List.map_id]

/-- What one interaction hands to the presentation layer: either the
"no data" warning state (app.py lines 198-199) or the chart state built
from the derived working copy. -/
inductive ViewModel where
  | noData
  | charts (rows : List DRow)

/-- One interaction cycle (app.py lines 190-1353): filter the loaded table;
on an empty subset emit the warning state and skip everything downstream,
otherwise derive the working copy for the tabs.  The loaded table is
returned unchanged alongside the view. -/
def runInteraction (df : List Row) (sel : Selection) :
    List Row × ViewModel :=
  let filtered := filter_df df sel
  if filtered.isEmpty then (df, ViewModel.noData)
  else (df, ViewModel.charts (derive filtered))

/-- C6: when the filter returns an empty subset, the interaction produces
the "no data" warning state: no derived-metric or aggregate computation
appears in the output and no charts render. -/
theorem empty_filter_no_data (df : List Row) (sel : Selection)
    (h : filter_df df sel = []) :
    (runInteraction df sel).2 = ViewModel.noData := by
  simp [runInteraction, h]

/-- Concrete instantiation of the empty-filter theorem: a selection naming
an absent company yields the warning state. -/
theorem empty_filter_no_data_witness :
    (runInteraction [wRow1] ⟨"B", [], [], []⟩).2 = ViewModel.noData :=
  empty_filter_no_data [wRow1] ⟨"B", [], [], []⟩ rfl

/-- C9: an interaction cycle never mutates the loaded table — the table
component of the result equals the input table — and every derived column
lives only in the working copy, whose base records are exactly the filtered
subset of the unchanged table. -/
theorem table_immutable (df : List Row) (sel : Selection) :
    (runInteraction df sel).1 = df ∧
    (∀ rows, (runInteraction df sel).2 = ViewModel.charts rows →
      rows.map DRow.base = filter_df df sel) := by
  constructor
  · by_cases hf : (filter_df df sel).isEmpty <;> simp [runInteraction, hf]
  · intro rows h
    by_cases hf : (filter_df df sel).isEmpty
    · simp [runInteraction, hf] at h
    · simp [runInteraction, hf] at h
      rw [← h, derive_base]

/-- Concrete instantiation of the immutability theorem on a one-row table
with a matching selection. -/
theorem table_immutable_witness :
    (runInteraction [wRow1] wSel1).1 = [wRow1] ∧
    (derive [wRow1]).map DRow.base = [wRow1] := by
  have h := table_immutable [wRow1] wSel1
  have h2 := h.2 (derive [wRow1]) rfl
  exact ⟨h.1, by rw [h2]; rfl⟩

/-- The fixed column subset of the detailed view and CSV download
(app.py lines 1331-1335). -/
def display_columns : List String :=
  ["company_name", "region", "department", "year", "quarter",
   "esg_score", "renewable_energy_share_pct", "scope1_emissions_tco2e",
   "female_pct", "employee_engagement_score",
   "controversy_level_0_low_3_high"]

/-- The sort key of app.py line 1338 as a boolean relation: year
descending, then quarter descending, then department ascending. -/
def detailedLE (a b : Row) : Bool :=
  decide (b.year < a.year ∨ (a.year = b.year ∧
    (b.quarter < a.quarter ∨ (a.quarter = b.quarter ∧
      a.department ≤ b.department))))

/-- The `detailed_df.sort_values(...)` step (app.py line 1338). -/
def detailedSort (l : List Row) : List Row := l.mergeSort detailedLE

/-- The download file name (app.py line 1351): the selected company with
spaces replaced by underscores, embedded in the csv name. -/
def download_file_name (company : String) : String :=
  "esg_data_" ++ company.replace (" ") ("_") ++ ".csv"

/-- The header line `to_csv` emits for the selected columns. -/
def csvHeader : String := String.intercalate (",") display_columns

theorem detailedLE_trans : ∀ a b c : Row, detailedLE a b = true →
    detailedLE b c = true → detailedLE a c = true := by
  intro a b c hab hbc
  simp only [detailedLE, decide_eq_true_eq] at *
  rcases hab with h1 | ⟨h1, h2 | ⟨h2, h3⟩⟩ <;>
    rcases hbc with g1 | ⟨g1, g2 | ⟨g2, g3⟩⟩ <;>
    first
      | exact Or.inl (by omega)
      | exact Or.inr ⟨by omega, Or.inl (by omega)⟩
      | exact Or.inr ⟨by omega, Or.inr ⟨by omega, le_trans h3 g3⟩⟩

theorem detailedLE_total : ∀ a b : Row,
    (detailedLE a b || detailedLE b a) = true := by
  intro a b
  simp only [detailedLE, Bool.or_eq_true, decide_eq_true_eq]
  rcases lt_trichotomy a.year b.year with h | h | h
  · exact Or.inr (Or.inl h)
  · rcases lt_trichotomy a.quarter b.quarter with q | q | q
    · exact Or.inr (Or.inr ⟨h.symm, Or.inl q⟩)
    · rcases le_total a.department b.department with d | d
      · exact Or.inl (Or.inr ⟨h, Or.inr ⟨q, d⟩⟩)
      · exact Or.inr (Or.inr ⟨h.symm, Or.inr ⟨q.symm, d⟩⟩)
    · exact Or.inl (Or.inr ⟨h, Or.inl q⟩)
  · exact Or.inl (Or.inl h)

/-- C7 counterexample: the export carries eleven columns, not seven — the
column count of the fixed download subset is 11. -/
theorem download_columns_counterexample :
    display_columns.length = 11 ∧ display_columns.length ≠ 7 := by
  constructor <;> simp [display_columns]

/-- C7 (amended): the exported rows are ordered by (year descending,
quarter descending, department ascending) and are a permutation of the
filtered rows; the export contains exactly the eleven specified columns in
order; and the filename embeds the selected company with spaces replaced by
underscores. -/
theorem download_serialization (l : List Row) (company : String) :
    List.Pairwise (fun a b => detailedLE a b = true) (detailedSort l) ∧
    (detailedSort l).Perm l ∧
    csvHeader = "company_name,region,department,year,quarter,esg_score," ++
      "renewable_energy_share_pct,scope1_emissions_tco2e,female_pct," ++
      "employee_engagement_score,controversy_level_0_low_3_high" ∧
    download_file_name company =
      "esg_data_" ++ company.replace (" ") ("_") ++ ".csv" := by
  refine ⟨List.sorted_mergeSort detailedLE_trans detailedLE_total l,
    List.mergeSort_perm l _, ?_, rfl⟩
  rfl

/-- First-occurrence distinct values of a column, as pandas
`Series.unique()` returns them (in order of appearance, each once). -/
def firstUniques {α : Type} [DecidableEq α] : List α → List α
  | [] => []
  | x :: xs => x :: firstUniques (xs.filter (fun y => decide (y ≠ x)))
  termination_by l => l.length
  decreasing_by
    simp only [List.length_cons]
    exact Nat.lt_succ_of_le (List.length_filter_le _ _)

theorem mem_firstUniques {α : Type} [DecidableEq α] :
    ∀ (l : List α) (a : α), a ∈ firstUniques l ↔ a ∈ l
  | [], a => by simp [firstUniques]
  | x :: xs, a => by
    simp only [firstUniques, List.mem_cons]
    constructor
    · rintro (rfl | h)
      · exact Or.inl rfl
      · have hm := (mem_firstUniques (xs.filter (fun y => decide (y ≠ x))) a).mp h
        exact Or.inr (List.mem_of_mem_filter hm)
    · rintro (rfl | h)
      · exact Or.inl rfl
      · by_cases hax : a = x
        · exact Or.inl hax
        · refine Or.inr ((mem_firstUniques _ a).mpr ?_)
          exact List.mem_filter.mpr ⟨h, by simp [hax]⟩
  termination_by l _ => l.length
  decreasing_by
    all_goals
      simp only [List.length_cons]
      exact Nat.lt_succ_of_le (List.length_filter_le _ _)

/-- Descending comparison used for the year dropdown
(`sorted(..., reverse=True)`, app.py line 166). -/
def yearGE (a b : Int) : Bool := decide (b ≤ a)

theorem yearGE_trans : ∀ a b c : Int, yearGE a b = true →
    yearGE b c = true → yearGE a c = true := by
  intro a b c hab hbc
  simp only [yearGE, decide_eq_true_eq] at *
  omega

theorem yearGE_total : ∀ a b : Int, (yearGE a b || yearGE b a) = true := by
  intro a b
  simp only [yearGE, Bool.or_eq_true, decide_eq_true_eq]
  omega

/-- `df['company_name'].unique()` (app.py line 158). -/
def companies (df : List Row) : List String :=
  firstUniques (df.map Row.company_name)

/-- The default company: index 0 of the unique companies (app.py lines
159-163). -/
def selected_company_default (df : List Row) : Option String :=
  (companies df).head?

/-- `sorted(df['year'].unique(), reverse=True)` (app.py line 166). -/
def years_sorted (df : List Row) : List Int :=
  (firstUniques (df.map Row.year)).mergeSort yearGE

/-- The default years: the first two entries of the descending year list
(app.py line 170). -/
def default_years (df : List Row) : List Int := (years_sorted df).take 2

/-- `df['region'].unique()` (app.py line 174). -/
def regions_distinct (df : List Row) : List String :=
  firstUniques (df.map Row.region)

/-- The default regions: all distinct regions (app.py line 178). -/
def default_regions (df : List Row) : List String := regions_distinct df

/-- `df['department'].unique()` (app.py line 182). -/
def departments_distinct (df : List Row) : List String :=
  firstUniques (df.map Row.department)

/-- The default departments: the first three distinct departments
(app.py line 186). -/
def default_departments (df : List Row) : List String :=
  (departments_distinct df).take 3

/-- C8: the default selection is reproducible from the distinct column
values: the default company is the first row's company (first by table
order); the year dropdown holds exactly the table's distinct years and
every default year is at least every non-default distinct year (the two
most recent, two of them when available); the default regions are exactly
the table's regions; and the default departments are a prefix of the
distinct departments of length three when available. -/
theorem default_selection_reproducible (df : List Row) (h : df ≠ []) :
    selected_company_default df = some ((df.head h).company_name) ∧
    (∀ y, y ∈ years_sorted df ↔ y ∈ df.map Row.year) ∧
    (∀ y ∈ default_years df, ∀ z ∈ years_sorted df,
      z ∉ default_years df → z ≤ y) ∧
    (default_years df).length = min 2 (years_sorted df).length ∧
    (∀ s, s ∈ default_regions df ↔ s ∈ df.map Row.region) ∧
    default_departments df <+: departments_distinct df ∧
    (default_departments df).length =
      min 3 (departments_distinct df).length := by
  obtain ⟨a, t, rfl⟩ := List.exists_cons_of_ne_nil h
  refine ⟨?_, ?_, ?_, List.length_take 2 _, ?_, List.take_prefix 3 _,
    List.length_take 3 _⟩
  · simp [selected_company_default, companies, firstUniques]
  · intro y
    rw [years_sorted, (List.mergeSort_perm _ yearGE).mem_iff,
      mem_firstUniques]
  · intro y hy z hz hnz
    have hsorted := List.sorted_mergeSort yearGE_trans yearGE_total
      (firstUniques ((a :: t).map Row.year))
    have hz2 : z ∈ List.drop 2 (years_sorted (a :: t)) := by
      rcases (List.mem_append.mp
        ((List.take_append_drop 2 (years_sorted (a :: t))) ▸ hz)) with hc | hc
      · exact absurd hc hnz
      · exact hc
    have hsplit := (List.take_append_drop 2 (years_sorted (a :: t))).symm
    rw [years_sorted] at hsplit
    rw [hsplit] at hsorted
    have := (List.pairwise_append.mp hsorted).2.2 y hy z hz2
    simpa [yearGE] using this
  · intro s
    rw [default_regions, regions_distinct, mem_firstUniques]

/-- Concrete instantiation of the default-selection theorem on the
three-row example table. -/
theorem default_selection_reproducible_witness :
    selected_company_default cTable = some ("A") ∧
    (default_years cTable).length = min 2 (years_sorted cTable).length := by
  have h := default_selection_reproducible cTable (List.cons_ne_nil _ _)
  refine ⟨?_, h.2.2.2.1⟩
  rw [h.1]
  rfl

/-- Minimum of a list of rationals, as pandas Series.min on a non-empty
column. -/
def listMin : List ℚ → ℚ
  | [] => 0
  | [x] => x
  | x :: y :: t => min x (listMin (y :: t))

/-- The per-region group keys of the governance risk table
(`groupby('region')`, app.py lines 1050-1054), in first-seen order. -/
def risk_regions (rows : List Row) : List String :=
  firstUniques (rows.map Row.region)

/-- Sum of one risk column over the rows of one region group. -/
def regionSum (f : Row → ℚ) (rows : List Row) (k : String) : ℚ :=
  ((rows.filter (fun r => r.region == k)).map f).foldl (fun a b => a + b) 0

/-- The per-region sums of one risk column (`data_breaches_count`,
`whistleblower_reports` or `fines_penalties_usd_m`). -/
def riskSums (f : Row → ℚ) (rows : List Row) : List ℚ :=
  (risk_regions rows).map (regionSum f rows)

/-- One normalized heatmap column (app.py lines 1057-1063): min-max
normalization when the column varies, the constant 0.5 otherwise. -/
def risk_normalized (vals : List ℚ) : List ℚ :=
  if listMax vals - listMin vals ≠ 0 then
    vals.map (fun v => (v - listMin vals) / (listMax vals - listMin vals))
  else
    vals.map (fun _ => 0.5)

/-- C10: when a risk column's per-region sums are all equal (max minus min
is zero), every normalized heatmap entry of that column is assigned the
constant 0.5 — the guard routes the degenerate case away from the
`(v - min)/(max - min)` division, so division by zero is unreachable. -/
theorem risk_normalized_degenerate (f : Row → ℚ) (rows : List Row)
    (h : listMax (riskSums f rows) - listMin (riskSums f rows) = 0) :
    risk_normalized (riskSums f rows) =
      (riskSums f rows).map (fun _ => (0.5 : ℚ)) := by
  simp [risk_normalized, h]

/-- Concrete instantiation of the degenerate-normalization theorem on a
one-region table with constant sums. -/
theorem risk_normalized_degenerate_witness :
    risk_normalized (riskSums Row.data_breaches_count [cRowR]) =
      (riskSums Row.data_breaches_count [cRowR]).map (fun _ => (0.5 : ℚ)) :=
  risk_normalized_degenerate Row.data_breaches_count [cRowR] (by
    norm_num [riskSums, risk_regions, regionSum, firstUniques, listMax,
      listMin, cRowR, row0])

end ESG
